import Mathlib

/-
Verification development for the RLUSD multi-chain ledger engine
(n8n-nodes-rlusd).  Each section embeds one part of the TypeScript
source as executable Lean definitions and proves or refutes the
specification claims about it.

The amount-conversion utilities (src: utils/amountUtils.ts) compute with
JavaScript Numbers, i.e. IEEE-754 binary64 values.  The model below
implements binary64 round-to-nearest, ties-to-even over exact rational
inputs given as numerator/denominator pairs of naturals.  All values
reached by the modelled computations lie well inside the normal range,
so overflow and subnormal handling are not modelled.  JavaScript's
Number.toString emits the shortest decimal string that parses back to
the identical double, and parseFloat is correctly rounded, so a
string round trip through toString/parseFloat is the identity on
doubles and is modelled as such.
-/

/-- Fuel-bounded floor of the base-2 logarithm: lg2 fuel n computes
Nat.log2 n whenever the recursion depth stays below the fuel.  A
structural fuel parameter keeps the definition kernel-reducible. -/
def lg2 : Nat → Nat → Nat
  | 0, _ => 0
  | fuel + 1, n => if n ≤ 1 then 0 else lg2 fuel (n / 2) + 1

/-- Floor of log2 for naturals, with fuel covering the whole binary64
exponent range. -/
def natLog2 (n : Nat) : Nat := lg2 1200 n

/-- Decides a / b < 2 ^ e for a positive rational given as a pair of
naturals, with an integer exponent. -/
def ratLtPow2 (a b : Nat) (e : Int) : Bool :=
  if 0 ≤ e then decide (a < b * 2 ^ e.toNat) else decide (a * 2 ^ (-e).toNat < b)

/-- Floor of log2 of the positive rational a / b.  The first guess from
the naturals' logarithms is off by at most one and is corrected by two
exact comparisons. -/
def ratLog2 (a b : Nat) : Int :=
  let e0 : Int := (natLog2 a : Int) - (natLog2 b : Int)
  if ratLtPow2 a b e0 then e0 - 1
  else if !ratLtPow2 a b (e0 + 1) then e0 + 1
  else e0

/-- Nearest integer to n / d (d > 0) with ties going to the even
integer: the rounding used at the mantissa of binary64 arithmetic. -/
def nearestEven (n d : Nat) : Nat :=
  let q := n / d
  let r := n % d
  if 2 * r < d then q
  else if d < 2 * r then q + 1
  else if q % 2 = 0 then q else q + 1

/-- A non-negative binary64 value, given by its exact value m * 2 ^ e.
The representation is not kept normalized; only the denoted value
matters to the model. -/
structure F64 where
  m : Nat
  e : Int
  deriving Repr, DecidableEq

/-- Rounds the non-negative rational a / b (b > 0) to the nearest
binary64 value, ties to even.  For a > 0 the result mantissa is the
correctly rounded 53-bit mantissa; a carry to 2 ^ 53 denotes the right
value without re-normalization. -/
def roundF64 (a b : Nat) : F64 :=
  if a = 0 then ⟨0, 0⟩
  else
    let e := ratLog2 a b
    let s : Int := 52 - e
    let nd : Nat × Nat :=
      if 0 ≤ s then (a * 2 ^ s.toNat, b) else (a, b * 2 ^ (-s).toNat)
    ⟨nearestEven nd.1 nd.2, e - 52⟩

/-- The exact value of a binary64 model value as a numerator/denominator
pair of naturals. -/
def F64.toRat (x : F64) : Nat × Nat :=
  if 0 ≤ x.e then (x.m * 2 ^ x.e.toNat, 1) else (x.m, 2 ^ (-x.e).toNat)

/-- Number conversion of an exact integer (JS Number(BigInt(n))):
rounds the integer to the nearest double. -/
def f64OfNat (n : Nat) : F64 := roundF64 n 1

/-- Binary64 division of a double by an exact positive natural
(the divisors 10^6 and 10^18 are themselves exactly representable, so
dividing by the constant double equals dividing by the natural). -/
def f64DivNat (x : F64) (k : Nat) : F64 :=
  let v := x.toRat
  roundF64 v.1 (v.2 * k)

/-- Binary64 multiplication of a double by an exact positive natural
(again exact in the second operand). -/
def f64MulNat (x : F64) (k : Nat) : F64 :=
  let v := x.toRat
  roundF64 (v.1 * k) v.2

/-- Math.floor of a non-negative double, as a natural. -/
def f64Floor (x : F64) : Nat :=
  let v := x.toRat
  v.1 / v.2

/-- parseFloat of the decimal literal digits / 10 ^ k: JavaScript's
parseFloat is correctly rounded, so it is the nearest double. -/
def parseFloatDecimal (digits k : Nat) : F64 := roundF64 digits (10 ^ k)

/-- dropsToXrp from utils/amountUtils.ts on a string of a non-negative
integer d: BigInt(d) is exact, Number(..) rounds to a double, the
division by 1_000_000 rounds again.  The produced string is the
shortest decimal printing of the result and is modelled by the double
itself (toString/parseFloat round-trip doubles exactly). -/
def dropsToXrp (drops : Nat) : F64 := f64DivNat (f64OfNat drops) 1000000

/-- xrpToDrops from utils/amountUtils.ts applied to a double x (the
value parseFloat produced from the input string): Math.floor(x * 1e6)
with binary64 multiplication, printed as an integer string. -/
def xrpToDropsF (x : F64) : Nat := f64Floor (f64MulNat x 1000000)

/-- xrpToDrops on the decimal display string digits / 10 ^ k. -/
def xrpToDrops (digits k : Nat) : Nat := xrpToDropsF (parseFloatDecimal digits k)

/-- ethToWei from utils/amountUtils.ts on the decimal display string
digits / 10 ^ k: BigInt(Math.floor(parseFloat(s) * 1e18)). -/
def ethToWei (digits k : Nat) : Nat := f64Floor (f64MulNat (parseFloatDecimal digits k) (10 ^ 18))

/-- The drops round trip xrpToDrops(dropsToXrp(d)) of the claim. -/
def dropsRoundTrip (d : Nat) : Nat := xrpToDropsF (dropsToXrp d)

/-- The specification's displayToSmallest: the exact mathematical floor
of (digits / 10 ^ k) * 10 ^ scale.  Stated from the spec's words to
compare the code against (refinement reference, not a source function). -/
def displayToSmallestSpec (digits k scale : Nat) : Nat :=
  digits * 10 ^ scale / 10 ^ k

/-
Result-code normalization (src/nodes/Rlusd/transport/xrplClient.ts,
XrplClient.submitTransaction and XrplClient.getResultMessage).
-/

/-- The keys of the message table in XrplClient.getResultMessage. -/
def recognizedResultCodes : List String :=
  ["tesSUCCESS", "tecUNFUNDED_PAYMENT", "tecNO_DST", "tecNO_LINE",
   "tecPATH_DRY", "tecINSUFF_FEE", "tecFROZEN", "tecNO_PERMISSION"]

/-- XrplClient.getResultMessage: lookup in the literal message object,
falling back to the generic interpolated message. -/
def getResultMessage (code : String) : String :=
  if code = "tesSUCCESS" then "Transaction successful"
  else if code = "tecUNFUNDED_PAYMENT" then "Insufficient RLUSD balance"
  else if code = "tecNO_DST" then "Destination account does not exist"
  else if code = "tecNO_LINE" then "No trustline to RLUSD issuer"
  else if code = "tecPATH_DRY" then "No valid payment path found"
  else if code = "tecINSUFF_FEE" then "Insufficient XRP for transaction fee"
  else if code = "tecFROZEN" then "Trustline is frozen"
  else if code = "tecNO_PERMISSION" then "Not authorized for this operation"
  else "Transaction result: " ++ code

/-- The normalized fields of XrplTransactionResult that depend on the
ledger result code. -/
structure SubmitOutcome where
  success : Bool
  resultCode : String
  resultMessage : String
  deriving Repr, DecidableEq

/-- JavaScript or-else over an optional string, as in the expression
meta?.TransactionResult or-else unknown: undefined and the empty string
are both falsy and fall back. -/
def jsOrElse (v : Option String) (fallback : String) : String :=
  match v with
  | none => fallback
  | some s => if s = "" then fallback else s

/-- Normalization step of XrplClient.submitTransaction over the optional
meta.TransactionResult field: success is the strict comparison with
tesSUCCESS; the code falls back to the text unknown on every falsy
value (missing field or empty string); the message argument is passed
through unguarded, so a missing field interpolates as the text
undefined inside the fallback message while an empty string
interpolates as itself. -/
def submitOutcome (metaResult : Option String) : SubmitOutcome :=
  { success := decide (metaResult = some "tesSUCCESS")
    resultCode := jsOrElse metaResult "unknown"
    resultMessage := getResultMessage (metaResult.getD "undefined") }

/-
Event filtering (src/nodes/Rlusd/RlusdTrigger.node.ts).  Amount values
are the exact values of the doubles parseFloat produced; the double
comparisons of the source coincide with rational comparisons of those
values.
-/

/-- RLUSD currency code constant (constants module). -/
def RLUSD_CURRENCY_CODE : String := "RLUSD"

/-- A raw transaction event as the consensus-ledger socket client
delivers it to the account subscription callback. -/
structure XrplRawTx where
  txType : String
  amountIsObject : Bool
  amountCurrency : String
  amountValue : ℚ
  account : String
  destination : String
  deriving Repr, DecidableEq

/-- RlusdTrigger.isRlusdTransaction. -/
def isRlusdTransaction (tx : XrplRawTx) : Bool :=
  if tx.txType ≠ "Payment" then false
  else tx.amountIsObject && (tx.amountCurrency == RLUSD_CURRENCY_CODE)

/-- RlusdTrigger.extractRlusdAmount. -/
def extractRlusdAmount (tx : XrplRawTx) : ℚ :=
  if tx.amountIsObject && (tx.amountCurrency == RLUSD_CURRENCY_CODE) then tx.amountValue
  else 0

/-- Emission condition of the consensus-ledger transfer callback in
RlusdTrigger.trigger: the callback checks the asset and the threshold
only; the event kind and the direction of the transfer relative to the
watched address are never inspected (the event argument is used solely
as the label of the emitted record). -/
def xrplTransferForward (event : String) (threshold : ℚ) (tx : XrplRawTx) : Bool :=
  isRlusdTransaction tx && decide (threshold ≤ extractRlusdAmount tx)

/-- A raw Transfer event of the RLUSD token contract as delivered by the
contract-ledger subscription (the subscription itself is filtered to the
RLUSD contract address, so every delivered event is for the tracked
asset). -/
structure EthTransferEvent where
  fromAddr : String
  toAddr : String
  value : ℚ
  deriving Repr, DecidableEq

/-- JavaScript toLowerCase as applied to the addresses (structural
recursion over the character list keeps it kernel-reducible; it agrees
with String.toLower). -/
def jsToLower (s : String) : String := ⟨s.data.map Char.toLower⟩

/-- Address-direction match of the contract-ledger transfer callback in
RlusdTrigger.trigger (the matchesAddress expression). -/
def ethMatchesAddress (event watchAddress fromAddr toAddr : String) : Bool :=
  (watchAddress == "") ||
  ((event == "transferTo") && (jsToLower toAddr == jsToLower watchAddress)) ||
  ((event == "transferFrom") && (jsToLower fromAddr == jsToLower watchAddress)) ||
  ((event == "transfer") &&
    ((jsToLower fromAddr == jsToLower watchAddress) || (jsToLower toAddr == jsToLower watchAddress)))

/-- Emission condition of the contract-ledger transfer callback. -/
def ethTransferForward (event watchAddress : String) (threshold : ℚ)
    (e : EthTransferEvent) : Bool :=
  ethMatchesAddress event watchAddress e.fromAddr e.toAddr && decide (threshold ≤ e.value)

/-
Connection and subscription state (src/nodes/Rlusd/transport/xrplClient.ts
and the trigger teardown in src/nodes/Rlusd/RlusdTrigger.node.ts).
-/

/-- Observable connection state of one XrplClient instance: the
isConnected flag, a count of socket open calls (to observe duplicate
connections), the server-side ledger stream subscription, and the two
callback registrations the subscribe methods install on the socket
client. -/
structure XrplConn where
  connected : Bool
  opens : Nat
  ledgerStream : Bool
  ledgerListener : Bool
  txListener : Bool
  deriving Repr, DecidableEq

/-- Network actions a client method performs, in order. -/
inductive NetAction
  | openConn
  | submit
  | wsRequest (command : String)
  deriving Repr, DecidableEq

/-- XrplClient.connect together with the socket actions it performs: the
open call happens only when the client is not yet connected. -/
def connectTrace (s : XrplConn) : XrplConn × List NetAction :=
  if s.connected then (s, [])
  else ({ s with connected := true, opens := s.opens + 1 }, [NetAction.openConn])

/-- XrplClient.connect, state part. -/
def XrplConn.connect (s : XrplConn) : XrplConn := (connectTrace s).1

/-- XrplClient.disconnect: closes only when connected. -/
def XrplConn.disconnect (s : XrplConn) : XrplConn :=
  if s.connected then { s with connected := false } else s

/-- XrplClient.subscribeAccount: connect, issue the subscribe request,
and register the transaction listener on the socket client. -/
def XrplConn.subscribeAccount (s : XrplConn) : XrplConn :=
  { s.connect with txListener := true }

/-- XrplClient.subscribeLedger: connect, subscribe the ledger stream,
and register the ledgerClosed listener. -/
def XrplConn.subscribeLedger (s : XrplConn) : XrplConn :=
  { s.connect with ledgerStream := true, ledgerListener := true }

/-- XrplClient.unsubscribeAll: issues one unsubscribe request for the
ledger stream.  No socket-client listener registration is removed and
the account subscription is untouched. -/
def XrplConn.unsubscribeAll (s : XrplConn) : XrplConn :=
  { s with ledgerStream := false }

/-- stopTrigger of RlusdTrigger.trigger, consensus-ledger branch:
unsubscribeAll, then disconnect.  The code keeps no stopped flag and
clears no listener registration. -/
def stopTrigger (s : XrplConn) : XrplConn := s.unsubscribeAll.disconnect

/-- startTrigger of RlusdTrigger.trigger for a transfer event kind with
non-empty watch address: subscribeAccount installs the filtering
callback. -/
def startTransferTrigger (s : XrplConn) : XrplConn := s.subscribeAccount

/-- Delivery of a raw transaction event emitted by the socket client to
its registered listeners: the event reaches the caller's sink iff the
transaction listener is still registered and the callback's filter
passes.  The callback consults no subscription state of its own. -/
def deliverTransfer (s : XrplConn) (event : String) (threshold : ℚ) (tx : XrplRawTx) : Bool :=
  s.txListener && xrplTransferForward event threshold tx

/-- Calls a caller can issue against one client instance: connect,
disconnect, any read endpoint (request, which awaits connect() first
and then issues its websocket request), and unsubscribeAll — the one
network-using method of XrplClient that issues its request without
awaiting connect() first. -/
inductive ClientCall
  | connectCall
  | disconnectCall
  | request (command : String)
  | unsubscribeAllCall
  deriving Repr, DecidableEq

/-- Connection-state effect and wire trace of one call.  Every read
endpoint awaits connect() before its request; unsubscribeAll sends its
unsubscribe request on whatever connection state the client is in and
never opens a connection. -/
def runCall : ClientCall → XrplConn → XrplConn × List NetAction
  | ClientCall.connectCall, s => connectTrace s
  | ClientCall.disconnectCall, s => (s.disconnect, [])
  | ClientCall.request command, s =>
      ((connectTrace s).1, (connectTrace s).2 ++ [NetAction.wsRequest command])
  | ClientCall.unsubscribeAllCall, s =>
      (s.unsubscribeAll, [NetAction.wsRequest "unsubscribe"])

/-- Connection-state effect of a call sequence, first call first. -/
def runCalls : List ClientCall → XrplConn → XrplConn
  | [], s => s
  | c :: rest, s => runCalls rest (runCall c s).1

/-
Transaction construction (src/nodes/Rlusd/transport/xrplClient.ts and
src/nodes/Rlusd/transport/ethereumClient.ts), with the call-site tag
handling of the Rlusd node (scripts bundle).
-/

/-- JavaScript truthiness of an optional number field used in the
conditional object spreads: undefined and 0 are falsy (NaN does not
arise in the modelled integer domain). -/
def jsTruthyNum : Option Int → Bool
  | none => false
  | some t => t != 0

/-- JavaScript truthiness of an optional string field: undefined and the
empty string are falsy. -/
def jsTruthyStr : Option String → Bool
  | none => false
  | some s => s != ""

/-- Errors the modelled client methods raise locally. -/
inductive ClientError
  | walletNotSet
  deriving Repr, DecidableEq

/-- validateDestinationTag from utils/paymentUtils.ts.  The argument is
a JavaScript number, modelled by its exact rational value;
Number.isInteger is the denominator-one test. -/
def validateDestinationTag (tag : ℚ) : Bool :=
  (tag.den == 1) && decide (0 ≤ tag) && decide (tag ≤ 4294967295)

/-- The destinationTag call-site expression tag or-else undefined of the
Rlusd node execute paths: 0 becomes undefined. -/
def tagOrUndefined (tag : Int) : Option Int :=
  if tag == 0 then none else some tag

/-- Options of XrplClient.setTrustline. -/
structure TrustlineOptions where
  qualityIn : Option Int := none
  qualityOut : Option Int := none
  noRipple : Bool := false
  deriving Repr, DecidableEq

/-- TrustSet transaction object built by XrplClient.setTrustline. -/
structure TrustSetTx where
  account : String
  limitCurrency : String
  limitIssuer : String
  limitValue : String
  qualityIn : Option Int
  qualityOut : Option Int
  flags : Option Nat
  deriving Repr, DecidableEq

/-- Transaction construction in XrplClient.setTrustline: quality fields
are spread in only when truthy, the Flags field is set only for
noRipple. -/
def setTrustlineTx (account issuer limit : String) (opts : TrustlineOptions) : TrustSetTx :=
  { account := account
    limitCurrency := RLUSD_CURRENCY_CODE
    limitIssuer := issuer
    limitValue := limit
    qualityIn := if jsTruthyNum opts.qualityIn then opts.qualityIn else none
    qualityOut := if jsTruthyNum opts.qualityOut then opts.qualityOut else none
    flags := if opts.noRipple then some 0x00020000 else none }

/-- Options of XrplClient.sendRlusd. -/
structure PaymentOptions where
  destinationTag : Option Int := none
  memos : List (String × String) := []
  deriving Repr, DecidableEq

/-- Payment transaction object built by XrplClient.sendRlusd.  Memos are
carried as the raw type/data pairs; their hex encoding is peripheral to
every claim and is not modelled. -/
structure PaymentTx where
  account : String
  destination : String
  amountCurrency : String
  amountIssuer : String
  amountValue : String
  destinationTag : Option Int
  memos : List (String × String)
  deriving Repr, DecidableEq

/-- Transaction construction in XrplClient.sendRlusd: the DestinationTag
field is spread in only when options.destinationTag is truthy, so a tag
of 0 is dropped. -/
def sendRlusdTx (account destination amount issuer : String) (opts : PaymentOptions) : PaymentTx :=
  { account := account
    destination := destination
    amountCurrency := RLUSD_CURRENCY_CODE
    amountIssuer := issuer
    amountValue := amount
    destinationTag := if jsTruthyNum opts.destinationTag then opts.destinationTag else none
    memos := opts.memos }

/-- A taker side of an offer: either a drops string or an issued
currency triple, carried verbatim by XrplClient.placeOrder. -/
inductive XrplAmount
  | drops (value : String)
  | issued (currency issuer value : String)
  deriving Repr, DecidableEq

/-- Options of XrplClient.placeOrder. -/
structure OrderOptions where
  passive : Bool := false
  immediateOrCancel : Bool := false
  fillOrKill : Bool := false
  sell : Bool := false
  expiration : Option Int := none
  deriving Repr, DecidableEq

/-- Flag composition in XrplClient.placeOrder: one fixed bit per named
option, composed by bitwise or. -/
def placeOrderFlags (opts : OrderOptions) : Nat :=
  let f1 := if opts.passive then 0 ||| 0x00010000 else 0
  let f2 := if opts.immediateOrCancel then f1 ||| 0x00020000 else f1
  let f3 := if opts.fillOrKill then f2 ||| 0x00040000 else f2
  if opts.sell then f3 ||| 0x00080000 else f3

/-- OfferCreate transaction object built by XrplClient.placeOrder: the
Flags and Expiration fields are spread in only when truthy. -/
structure OfferCreateTx where
  account : String
  takerGets : XrplAmount
  takerPays : XrplAmount
  flags : Option Nat
  expiration : Option Int
  deriving Repr, DecidableEq

/-- Transaction construction in XrplClient.placeOrder. -/
def placeOrderTx (account : String) (takerGets takerPays : XrplAmount)
    (opts : OrderOptions) : OfferCreateTx :=
  { account := account
    takerGets := takerGets
    takerPays := takerPays
    flags := if placeOrderFlags opts != 0 then some (placeOrderFlags opts) else none
    expiration := if jsTruthyNum opts.expiration then opts.expiration else none }

/-- OfferCancel transaction object built by XrplClient.cancelOrder. -/
structure OfferCancelTx where
  account : String
  offerSequence : Int
  deriving Repr, DecidableEq

/-- Options of XrplClient.createEscrow. -/
structure EscrowOptions where
  finishAfter : Option Int := none
  cancelAfter : Option Int := none
  condition : Option String := none
  destinationTag : Option Int := none
  deriving Repr, DecidableEq

/-- EscrowCreate transaction object built by XrplClient.createEscrow.
The Amount field is the display string handed to the ledger library's
own drops conversion, which is outside this repository. -/
structure EscrowCreateTx where
  account : String
  destination : String
  amountXrp : String
  finishAfter : Option Int
  cancelAfter : Option Int
  condition : Option String
  destinationTag : Option Int
  deriving Repr, DecidableEq

/-- Transaction construction in XrplClient.createEscrow: every optional
field is spread in only when truthy, so a destination tag of 0 is
dropped here as well. -/
def createEscrowTx (account destination amount : String) (opts : EscrowOptions) : EscrowCreateTx :=
  { account := account
    destination := destination
    amountXrp := amount
    finishAfter := if jsTruthyNum opts.finishAfter then opts.finishAfter else none
    cancelAfter := if jsTruthyNum opts.cancelAfter then opts.cancelAfter else none
    condition := if jsTruthyStr opts.condition then opts.condition else none
    destinationTag := if jsTruthyNum opts.destinationTag then opts.destinationTag else none }

/-
Client methods with their wallet gate and network trace
(src/nodes/Rlusd/transport/xrplClient.ts lines 191-313,
src/nodes/Rlusd/transport/ethereumClient.ts transfer).  Each method is
modelled as the ordered list of network actions it performs together
with its result; the source checks the wallet first and only then
connects and submits.
-/

/-- State of one XrplClient instance relevant to the write methods: the
optionally loaded wallet (its account address) and the issuer address
resolved from the network registry, plus the connection state. -/
structure XrplClientState where
  wallet : Option String
  issuer : String
  conn : XrplConn
  deriving Repr, DecidableEq

/-- XrplClient.setTrustline. -/
def setTrustline (s : XrplClientState) (limit : String) (opts : TrustlineOptions) :
    List NetAction × Except ClientError TrustSetTx :=
  match s.wallet with
  | none => ([], Except.error ClientError.walletNotSet)
  | some account =>
      ((connectTrace s.conn).2 ++ [NetAction.submit],
       Except.ok (setTrustlineTx account s.issuer limit opts))

/-- XrplClient.sendRlusd. -/
def sendRlusd (s : XrplClientState) (destination amount : String) (opts : PaymentOptions) :
    List NetAction × Except ClientError PaymentTx :=
  match s.wallet with
  | none => ([], Except.error ClientError.walletNotSet)
  | some account =>
      ((connectTrace s.conn).2 ++ [NetAction.submit],
       Except.ok (sendRlusdTx account destination amount s.issuer opts))

/-- XrplClient.placeOrder. -/
def placeOrder (s : XrplClientState) (takerGets takerPays : XrplAmount) (opts : OrderOptions) :
    List NetAction × Except ClientError OfferCreateTx :=
  match s.wallet with
  | none => ([], Except.error ClientError.walletNotSet)
  | some account =>
      ((connectTrace s.conn).2 ++ [NetAction.submit],
       Except.ok (placeOrderTx account takerGets takerPays opts))

/-- XrplClient.cancelOrder. -/
def cancelOrder (s : XrplClientState) (offerSequence : Int) :
    List NetAction × Except ClientError OfferCancelTx :=
  match s.wallet with
  | none => ([], Except.error ClientError.walletNotSet)
  | some account =>
      ((connectTrace s.conn).2 ++ [NetAction.submit],
       Except.ok { account := account, offerSequence := offerSequence })

/-- XrplClient.createEscrow. -/
def createEscrow (s : XrplClientState) (destination amount : String) (opts : EscrowOptions) :
    List NetAction × Except ClientError EscrowCreateTx :=
  match s.wallet with
  | none => ([], Except.error ClientError.walletNotSet)
  | some account =>
      ((connectTrace s.conn).2 ++ [NetAction.submit],
       Except.ok (createEscrowTx account destination amount opts))

/-- State of one EthereumClient instance relevant to transfer: the
contract handle is non-null exactly when setWallet ran. -/
structure EthClientState where
  contractLoaded : Bool
  deriving Repr, DecidableEq

/-- The contract call made by EthereumClient.transfer. -/
structure Erc20TransferCall where
  toAddr : String
  amountValue : String
  deriving Repr, DecidableEq

/-- EthereumClient.transfer: throws before any provider interaction when
no wallet was loaded. -/
def ethTransfer (s : EthClientState) (toAddr amount : String) :
    List NetAction × Except ClientError Erc20TransferCall :=
  if s.contractLoaded then
    ([NetAction.submit], Except.ok { toAddr := toAddr, amountValue := amount })
  else ([], Except.error ClientError.walletNotSet)

/-
Order book aggregation (src/nodes/Rlusd/transport/xrplClient.ts,
getOrderBook and getRlusdXrpOrderBook) against a mocked book_offers
server.
-/

/-- One side of a book query. -/
structure CurrencySpec where
  currency : String
  issuer : Option String
  deriving Repr, DecidableEq

/-- A book_offers request as getOrderBook sends it. -/
structure BookQuery where
  takerGets : CurrencySpec
  takerPays : CurrencySpec
  limit : Nat
  deriving Repr, DecidableEq

/-- Request construction of XrplClient.getOrderBook: the XRP side is
sent bare, an issued side keeps its issuer. -/
def bookQuery (takerGets takerPays : CurrencySpec) (limit : Nat) : BookQuery :=
  { takerGets :=
      if takerGets.currency = "XRP" then { currency := "XRP", issuer := none } else takerGets
    takerPays :=
      if takerPays.currency = "XRP" then { currency := "XRP", issuer := none } else takerPays
    limit := limit }

/-- XrplClient.getOrderBook against a mocked server: the response's
offers array is returned verbatim. -/
def getOrderBook (server : BookQuery → List α) (takerGets takerPays : CurrencySpec)
    (limit : Nat) : List α :=
  server (bookQuery takerGets takerPays limit)

/-- XrplClient.getRlusdXrpOrderBook: two reverse-paired queries; bids
and asks are the two responses' offer arrays, unmodified. -/
def getRlusdXrpOrderBook (server : BookQuery → List α) (issuer : String) (limit : Nat) :
    List α × List α :=
  (getOrderBook server { currency := "XRP", issuer := none }
      { currency := RLUSD_CURRENCY_CODE, issuer := some issuer } limit,
   getOrderBook server { currency := RLUSD_CURRENCY_CODE, issuer := some issuer }
      { currency := "XRP", issuer := none } limit)

/-
Concrete instances used by the counterexamples and witnesses below.
-/

/-- An RLUSD payment of 50 whose watched address appears only as the
sender. -/
def senderOnlyTx : XrplRawTx :=
  { txType := "Payment", amountIsObject := true, amountCurrency := "RLUSD"
    amountValue := 50, account := "rWatchedAddress", destination := "rSomeoneElse" }

/-- An RLUSD payment of 5, below a threshold of 10. -/
def lowAmountTx : XrplRawTx :=
  { txType := "Payment", amountIsObject := true, amountCurrency := "RLUSD"
    amountValue := 5, account := "rA", destination := "rB" }

/-- A contract-ledger transfer of 50 sent by the watched address (case
differs to exercise the lowercase comparison). -/
def ethSenderEvent : EthTransferEvent :=
  { fromAddr := "0xWATCH", toAddr := "0xother", value := 50 }

/-- An RLUSD payment of 42 arriving after the trigger was stopped. -/
def postStopTx : XrplRawTx :=
  { txType := "Payment", amountIsObject := true, amountCurrency := "RLUSD"
    amountValue := 42, account := "rPayer", destination := "rWatchedAddress" }

/-- A fresh, never-connected client connection state. -/
def freshConn : XrplConn :=
  { connected := false, opens := 0, ledgerStream := false
    ledgerListener := false, txListener := false }

/-- A client with a loaded wallet on a fresh connection. -/
def walletState : XrplClientState :=
  { wallet := some "rSenderAccount", issuer := "rIssuerAddress", conn := freshConn }

/-- A client with no loaded wallet. -/
def noWalletState : XrplClientState :=
  { wallet := none, issuer := "rIssuerAddress", conn := freshConn }

/-- A mocked book_offers server that disregards the requested limit and
returns two entries for every query. -/
def overfullServer : BookQuery → List Nat := fun _ => [0, 1]

/-- A mocked book_offers server that honors the requested limit: it
returns exactly limit entries, in the order 0, 1, 2, ... -/
def honoringServer : BookQuery → List Nat := fun q => List.range q.limit

/-
Theorems.  Helper lemmas come first, then one theorem per claim (with
counterexamples and witnesses where a claim needs them).
-/

/-- A freshly connected client reports connected. -/
theorem connect_connected (s : XrplConn) : s.connect.connected = true := by
  cases hc : s.connected <;> simp [XrplConn.connect, connectTrace, hc]

/-- Step accounting of a single non-disconnect call: while connected,
no call opens the socket and the client stays connected; while
disconnected, the call either opens the socket once and connects
(connect, read request) or leaves the connection state and open count
untouched (unsubscribeAll). -/
theorem runCall_step (c : ClientCall) (s : XrplConn) (h : c ≠ ClientCall.disconnectCall) :
    (s.connected = true →
      ((runCall c s).1).connected = true ∧ ((runCall c s).1).opens = s.opens) ∧
    (s.connected = false →
      (((runCall c s).1).connected = true ∧ ((runCall c s).1).opens = s.opens + 1) ∨
      (((runCall c s).1).connected = false ∧ ((runCall c s).1).opens = s.opens)) := by
  cases c with
  | connectCall => cases hc : s.connected <;> simp [runCall, connectTrace, hc]
  | disconnectCall => exact absurd rfl h
  | request command => cases hc : s.connected <;> simp [runCall, connectTrace, hc]
  | unsubscribeAllCall =>
      cases hc : s.connected <;> simp [runCall, XrplConn.unsubscribeAll, hc]

/-- Once connected, a disconnect-free call sequence opens no further
socket connection and the client stays connected. -/
theorem runCalls_opens_of_connected (calls : List ClientCall) (s : XrplConn)
    (hd : ∀ c ∈ calls, c ≠ ClientCall.disconnectCall) (hc : s.connected = true) :
    (runCalls calls s).connected = true ∧ (runCalls calls s).opens = s.opens := by
  induction calls generalizing s with
  | nil => exact ⟨hc, rfl⟩
  | cons c rest ih =>
      have h1 := (runCall_step c s (hd c (List.mem_cons_self c rest))).1 hc
      have h2 := ih (runCall c s).1 (fun d hm => hd d (List.mem_cons_of_mem c hm)) h1.1
      rw [runCalls]
      exact ⟨h2.1, by rw [h2.2, h1.2]⟩

/-- A disconnect-free call sequence opens the socket at most once. -/
theorem runCalls_opens_le (calls : List ClientCall) (s : XrplConn)
    (hd : ∀ c ∈ calls, c ≠ ClientCall.disconnectCall) :
    (runCalls calls s).opens ≤ s.opens + 1 := by
  induction calls generalizing s with
  | nil => simp [runCalls]
  | cons c rest ih =>
      have hrest : ∀ d ∈ rest, d ≠ ClientCall.disconnectCall :=
        fun d hm => hd d (List.mem_cons_of_mem c hm)
      have hs := runCall_step c s (hd c (List.mem_cons_self c rest))
      rw [runCalls]
      cases hc : s.connected with
      | true =>
          obtain ⟨h1, h2⟩ := hs.1 hc
          have h3 := (runCalls_opens_of_connected rest (runCall c s).1 hrest h1).2
          omega
      | false =>
          rcases hs.2 hc with ⟨h1, h2⟩ | ⟨h1, h2⟩
          · have h3 := (runCalls_opens_of_connected rest (runCall c s).1 hrest h1).2
            omega
          · have h3 := ih (runCall c s).1 hrest
            omega

/-- C1: the claimed round-trip identity displayToSmallest ∘
smallestToDisplay = id fails on the code at the smallest-unit input
249: the float-based chain dropsToXrp then xrpToDrops returns 248.  The
two examples quoted by the claim do hold (1000000 drops prints as 1 XRP
and 1 XRP converts to 1000000 drops). -/
theorem dropsRoundTrip_not_identity :
    dropsRoundTrip 249 = 248 ∧ dropsToXrp 1000000 = f64OfNat 1 ∧ xrpToDrops 1 0 = 1000000 := by
  decide

/-- C2: displayToSmallest does not always floor toward zero: at the
display input 0.99999999999999999 the code returns 1000000 smallest
units, strictly above the exact floor 999999 of amount * 10^6. -/
theorem xrpToDrops_exceeds_exact_floor :
    xrpToDrops 99999999999999999 17 = 1000000 ∧
    displayToSmallestSpec 99999999999999999 17 6 = 999999 := by
  decide

/-- C3: for every result code, the normalized outcome is successful
exactly for tesSUCCESS, each of the eight recognized codes carries its
fixed message, and an unrecognized code yields failure with the generic
message carrying the raw code. -/
theorem submit_outcome_normalization (code : String) :
    ((submitOutcome (some code)).success = true ↔ code = "tesSUCCESS") ∧
    (code ≠ "" → (submitOutcome (some code)).resultCode = code) ∧
    (submitOutcome (some "")).resultCode = "unknown" ∧
    (submitOutcome none).resultCode = "unknown" ∧
    (submitOutcome (some code)).resultMessage = getResultMessage code ∧
    getResultMessage "tesSUCCESS" = "Transaction successful" ∧
    getResultMessage "tecUNFUNDED_PAYMENT" = "Insufficient RLUSD balance" ∧
    getResultMessage "tecNO_DST" = "Destination account does not exist" ∧
    getResultMessage "tecNO_LINE" = "No trustline to RLUSD issuer" ∧
    getResultMessage "tecPATH_DRY" = "No valid payment path found" ∧
    getResultMessage "tecINSUFF_FEE" = "Insufficient XRP for transaction fee" ∧
    getResultMessage "tecFROZEN" = "Trustline is frozen" ∧
    getResultMessage "tecNO_PERMISSION" = "Not authorized for this operation" ∧
    (code ∉ recognizedResultCodes →
      (submitOutcome (some code)).success = false ∧
      (submitOutcome (some code)).resultMessage = "Transaction result: " ++ code) := by
  refine ⟨by simp [submitOutcome], ?_, by decide, by decide, rfl, by decide, by decide,
    by decide, by decide, by decide, by decide, by decide, by decide, ?_⟩
  · intro h
    simp [submitOutcome, jsOrElse, h]
  · intro h
    simp only [recognizedResultCodes, List.mem_cons, List.not_mem_nil, or_false, not_or] at h
    obtain ⟨h1, h2, h3, h4, h5, h6, h7, h8⟩ := h
    exact ⟨by simp [submitOutcome, h1],
      by simp [submitOutcome, getResultMessage, h1, h2, h3, h4, h5, h6, h7, h8]⟩

/-- Witness for C3 at the unrecognized, non-empty code tecEXPIRED. -/
theorem submit_outcome_normalization_spot :
    ("tecEXPIRED" ∉ recognizedResultCodes) ∧
    (submitOutcome (some "tecEXPIRED")).resultCode = "tecEXPIRED" ∧
    (submitOutcome (some "tecEXPIRED")).success = false ∧
    (submitOutcome (some "tecEXPIRED")).resultMessage = "Transaction result: " ++ "tecEXPIRED" := by
  obtain ⟨-, h2, -, -, -, -, -, -, -, -, -, -, -, h14⟩ :=
    submit_outcome_normalization "tecEXPIRED"
  have hf := h14 (by decide)
  exact ⟨by decide, h2 (by decide), hf.1, hf.2⟩

/-- C4 counterexample: on the consensus ledger an RLUSD transfer whose
watched address appears only as the sender is forwarded under the
transferTo event kind — the callback never checks direction, refuting
the claim that such an event is never forwarded under transferTo. -/
theorem xrpl_transferTo_forwards_sender_only :
    senderOnlyTx.account = "rWatchedAddress" ∧
    senderOnlyTx.destination ≠ "rWatchedAddress" ∧
    xrplTransferForward "transferTo" 10 senderOnlyTx = true := by
  decide

/-- C4 (amended): a below-threshold or non-RLUSD event is never
forwarded on either ledger; an RLUSD event meeting the threshold is
always forwarded on the consensus ledger regardless of event kind or
direction; on the contract ledger a sender-only match is forwarded
under transfer and transferFrom but not under transferTo. -/
theorem transfer_filtering_amended (event watchAddress : String) (threshold : ℚ)
    (tx : XrplRawTx) (e : EthTransferEvent) :
    (extractRlusdAmount tx < threshold → xrplTransferForward event threshold tx = false) ∧
    (tx.amountCurrency ≠ RLUSD_CURRENCY_CODE → xrplTransferForward event threshold tx = false) ∧
    (isRlusdTransaction tx = true → threshold ≤ extractRlusdAmount tx →
      xrplTransferForward event threshold tx = true) ∧
    (e.value < threshold → ethTransferForward event watchAddress threshold e = false) ∧
    (watchAddress ≠ "" → jsToLower e.fromAddr = jsToLower watchAddress →
      jsToLower e.toAddr ≠ jsToLower watchAddress →
      ethTransferForward "transferTo" watchAddress threshold e = false ∧
      (threshold ≤ e.value →
        ethTransferForward "transfer" watchAddress threshold e = true ∧
        ethTransferForward "transferFrom" watchAddress threshold e = true)) := by
  refine ⟨?_, ?_, ?_, ?_, ?_⟩
  · intro h
    simp [xrplTransferForward, not_le.mpr h]
  · intro h
    have hb : (tx.amountCurrency == RLUSD_CURRENCY_CODE) = false := beq_eq_false_iff_ne.mpr h
    simp [xrplTransferForward, isRlusdTransaction, hb]
  · intro h1 h2
    simp [xrplTransferForward, h1, h2]
  · intro h
    simp [ethTransferForward, not_le.mpr h]
  · intro hw hf ht
    have hwb : (watchAddress == "") = false := beq_eq_false_iff_ne.mpr hw
    have hfb : (jsToLower e.fromAddr == jsToLower watchAddress) = true := beq_iff_eq.mpr hf
    have htb : (jsToLower e.toAddr == jsToLower watchAddress) = false := beq_eq_false_iff_ne.mpr ht
    refine ⟨?_, fun hv => ⟨?_, ?_⟩⟩
    · simp [ethTransferForward, ethMatchesAddress, hwb, hfb, htb]
    · simp [ethTransferForward, ethMatchesAddress, hwb, hfb, htb, hv]
    · simp [ethTransferForward, ethMatchesAddress, hwb, hfb, htb, hv]

/-- Witness for C4 (amended) at concrete below-threshold and sender-only
events. -/
theorem transfer_filtering_amended_spot :
    xrplTransferForward "transferTo" 10 lowAmountTx = false ∧
    ethTransferForward "transferTo" "0xwatch" 10 ethSenderEvent = false ∧
    ethTransferForward "transfer" "0xwatch" 10 ethSenderEvent = true ∧
    ethTransferForward "transferFrom" "0xwatch" 10 ethSenderEvent = true := by
  have h := transfer_filtering_amended "transferTo" "0xwatch" 10 lowAmountTx ethSenderEvent
  have hdir := h.2.2.2.2 (by decide) (by decide) (by decide)
  exact ⟨h.1 (by decide), hdir.1, (hdir.2 (by decide)).1, (hdir.2 (by decide)).2⟩

/-- C5: after the stop function has run, a raw transaction event
arriving from the socket client is still forwarded to the caller's
sink: stopTrigger never unregisters the transaction listener (its
unsubscribe request covers only the ledger stream) and the delivery
path checks no subscription state, so delivery is gated by listener
registration alone — the state itself, although Closed (disconnected),
does not gate delivery. -/
theorem delivery_after_stop :
    (stopTrigger (startTransferTrigger freshConn)).connected = false ∧
    (stopTrigger (startTransferTrigger freshConn)).txListener = true ∧
    deliverTransfer (stopTrigger (startTransferTrigger freshConn)) "transfer" 10 postStopTx
      = true := by
  decide

/-- C6: with no loaded signing credential every transaction-building
method fails with the wallet-not-set error and performs no network
action at all (the trace is empty: no connect, no submission). -/
theorem no_credential_fails_before_network (s : XrplClientState) (es : EthClientState)
    (limit destination amount : String) (topts : TrustlineOptions) (popts : PaymentOptions)
    (oopts : OrderOptions) (eopts : EscrowOptions) (takerGets takerPays : XrplAmount)
    (offerSequence : Int) (hw : s.wallet = none) (he : es.contractLoaded = false) :
    setTrustline s limit topts = ([], Except.error ClientError.walletNotSet) ∧
    sendRlusd s destination amount popts = ([], Except.error ClientError.walletNotSet) ∧
    placeOrder s takerGets takerPays oopts = ([], Except.error ClientError.walletNotSet) ∧
    cancelOrder s offerSequence = ([], Except.error ClientError.walletNotSet) ∧
    createEscrow s destination amount eopts = ([], Except.error ClientError.walletNotSet) ∧
    ethTransfer es destination amount = ([], Except.error ClientError.walletNotSet) := by
  refine ⟨?_, ?_, ?_, ?_, ?_, ?_⟩ <;>
    simp [setTrustline, sendRlusd, placeOrder, cancelOrder, createEscrow, ethTransfer, hw, he]

/-- Witness for C6 on a concrete wallet-less client. -/
theorem no_credential_fails_before_network_spot :
    setTrustline noWalletState "100" {} = ([], Except.error ClientError.walletNotSet) ∧
    ethTransfer { contractLoaded := false } "0xdest" "5"
      = ([], Except.error ClientError.walletNotSet) := by
  have h := no_credential_fails_before_network noWalletState { contractLoaded := false }
    "100" "0xdest" "5" {} {} {} {} (XrplAmount.drops "1") (XrplAmount.drops "2") 7 rfl rfl
  exact ⟨h.1, h.2.2.2.2.2⟩

/-- C7 counterexample: building a payment with the out-of-range
destination tag 4294967296 does not fail — the tag is embedded
unvalidated in the transaction and the method succeeds, refuting the
claim that such a build fails with an invalid-destination-tag error. -/
theorem out_of_range_tag_not_rejected :
    sendRlusd walletState "rDest" "25" { destinationTag := some 4294967296 } =
      ([NetAction.openConn, NetAction.submit],
       Except.ok
         { account := "rSenderAccount", destination := "rDest"
           amountCurrency := "RLUSD", amountIssuer := "rIssuerAddress", amountValue := "25"
           destinationTag := some 4294967296, memos := [] }) := by
  rfl

/-- C7 (amended): validateDestinationTag is true exactly on integral
values between 0 and 4294967295 (so 4294967296 and -1 are rejected),
but the payment-building path never invokes it: any non-zero tag,
in range or not, is embedded unchanged in the built payment and no
invalid-destination-tag failure is raised. -/
theorem destination_tag_validation_amended (q : ℚ) (tag : Int) (s : XrplClientState)
    (account destination amount : String) (memos : List (String × String))
    (htag : tag ≠ 0) (hw : s.wallet = some account) :
    (validateDestinationTag q = true ↔ (∃ n : ℤ, q = (n : ℚ)) ∧ 0 ≤ q ∧ q ≤ 4294967295) ∧
    validateDestinationTag 4294967296 = false ∧
    validateDestinationTag (-1) = false ∧
    sendRlusd s destination amount { destinationTag := some tag, memos := memos } =
      ((connectTrace s.conn).2 ++ [NetAction.submit],
       Except.ok (sendRlusdTx account destination amount s.issuer
         { destinationTag := some tag, memos := memos })) ∧
    (sendRlusdTx account destination amount s.issuer
      { destinationTag := some tag, memos := memos }).destinationTag = some tag := by
  refine ⟨?_, by decide, by decide, ?_, ?_⟩
  · constructor
    · intro h
      simp only [validateDestinationTag, Bool.and_eq_true, beq_iff_eq, decide_eq_true_eq] at h
      obtain ⟨⟨hd, h0⟩, h1⟩ := h
      exact ⟨⟨q.num, ((Rat.den_eq_one_iff q).mp hd).symm⟩, h0, h1⟩
    · rintro ⟨⟨n, rfl⟩, h0, h1⟩
      simp [validateDestinationTag, Rat.den_intCast, h0, h1]
  · simp [sendRlusd, hw]
  · have ht : jsTruthyNum (some tag) = true := by
      simp [jsTruthyNum, htag]
    simp [sendRlusdTx, ht]

/-- Witness for C7 (amended) at tag 7 on a wallet-loaded client. -/
theorem destination_tag_validation_amended_spot :
    validateDestinationTag 7 = true ∧
    validateDestinationTag 4294967296 = false ∧
    (sendRlusdTx "rSenderAccount" "rDest" "25" "rIssuerAddress"
      { destinationTag := some 7, memos := [] }).destinationTag = some 7 := by
  have h := destination_tag_validation_amended 7 7 walletState "rSenderAccount" "rDest" "25" []
    (by decide) rfl
  exact ⟨h.1.mpr ⟨⟨7, by decide⟩, by decide, by decide⟩, h.2.1, h.2.2.2.2⟩

/-- C8 counterexample: unsubscribeAll on a never-connected client issues
its unsubscribe request while the connection is still down and opens no
connection — a network-using operation that proceeds without ensuring a
connection exists, refuting the claim's universal ensures-connection
clause. -/
theorem unsubscribeAll_skips_connect :
    freshConn.connected = false ∧
    (runCall ClientCall.unsubscribeAllCall freshConn).2
      = [NetAction.wsRequest "unsubscribe"] ∧
    ((runCall ClientCall.unsubscribeAllCall freshConn).1).connected = false ∧
    ((runCall ClientCall.unsubscribeAllCall freshConn).1).opens = 0 := by
  decide

/-- C8 (amended): connection establishment is idempotent and lazy for
every network-using operation except unsubscribeAll — a repeated
connect is the identity, disconnect on a disconnected client is a
no-op, every read call connects before issuing its request, and a
disconnect-free call sequence opens the socket at most once and never
while already connected; unsubscribeAll alone issues its unsubscribe
request without ensuring a connection (it opens nothing and leaves the
connection state as it found it). -/
theorem connection_lazy_amended :
    (∀ s : XrplConn, s.connect.connect = s.connect) ∧
    (∀ s : XrplConn, s.connected = false → s.disconnect = s) ∧
    (∀ (command : String) (s : XrplConn),
      ((runCall (ClientCall.request command) s).1).connected = true ∧
      (runCall (ClientCall.request command) s).2
        = (connectTrace s).2 ++ [NetAction.wsRequest command]) ∧
    (∀ s : XrplConn,
      ((runCall ClientCall.unsubscribeAllCall s).1).connected = s.connected ∧
      ((runCall ClientCall.unsubscribeAllCall s).1).opens = s.opens ∧
      (runCall ClientCall.unsubscribeAllCall s).2
        = [NetAction.wsRequest "unsubscribe"]) ∧
    (∀ (calls : List ClientCall) (s : XrplConn),
      (∀ c ∈ calls, c ≠ ClientCall.disconnectCall) →
      (runCalls calls s).opens ≤ s.opens + 1 ∧
      (s.connected = true → (runCalls calls s).opens = s.opens)) := by
  refine ⟨?_, ?_, ?_, ?_, ?_⟩
  · intro s
    cases hc : s.connected <;> simp [XrplConn.connect, connectTrace, hc]
  · intro s hc
    simp [XrplConn.disconnect, hc]
  · intro command s
    cases hc : s.connected <;> simp [runCall, connectTrace, hc]
  · intro s
    simp [runCall, XrplConn.unsubscribeAll]
  · intro calls s hd
    exact ⟨runCalls_opens_le calls s hd,
      fun hc => (runCalls_opens_of_connected calls s hd hc).2⟩

/-- Witness for C8 (amended) on a concrete call sequence (read,
unsubscribeAll, connect, read) from a fresh client. -/
theorem connection_lazy_amended_spot :
    (runCalls [ClientCall.request "account_info", ClientCall.unsubscribeAllCall,
      ClientCall.connectCall, ClientCall.request "server_info"] freshConn).opens
        ≤ freshConn.opens + 1 ∧
    freshConn.disconnect = freshConn := by
  have h := connection_lazy_amended
  exact ⟨(h.2.2.2.2 _ freshConn (by decide)).1, h.2.1 freshConn rfl⟩

/-- C9 counterexample: with a mocked server answering two entries to
every book query, getBook with limit 1 returns two entries on the bid
side — the client does not truncate to the limit, refuting the claim
for mocked responses that overrun it. -/
theorem getBook_exceeds_limit :
    1 < ((getRlusdXrpOrderBook overfullServer "rIssuerAddress" 1).1).length := by
  decide

/-- C9 (amended): getBook issues the two reverse-paired queries carrying
the requested limit and returns each side's server response verbatim
(hence in the server-provided order); the at-most-limit cap per side
holds whenever the server honors the requested limit. -/
theorem getBook_verbatim_and_capped (server : BookQuery → List α) (issuer : String)
    (limit : Nat) :
    (getRlusdXrpOrderBook server issuer limit).1 =
      server (bookQuery { currency := "XRP", issuer := none }
        { currency := RLUSD_CURRENCY_CODE, issuer := some issuer } limit) ∧
    (getRlusdXrpOrderBook server issuer limit).2 =
      server (bookQuery { currency := RLUSD_CURRENCY_CODE, issuer := some issuer }
        { currency := "XRP", issuer := none } limit) ∧
    ((∀ q : BookQuery, (server q).length ≤ q.limit) →
      ((getRlusdXrpOrderBook server issuer limit).1).length ≤ limit ∧
      ((getRlusdXrpOrderBook server issuer limit).2).length ≤ limit) := by
  exact ⟨rfl, rfl, fun h => ⟨h _, h _⟩⟩

/-- Witness for C9 (amended) with a limit-honoring mocked server. -/
theorem getBook_verbatim_and_capped_spot :
    ((getRlusdXrpOrderBook honoringServer "rIssuerAddress" 3).1).length ≤ 3 ∧
    ((getRlusdXrpOrderBook honoringServer "rIssuerAddress" 3).2).length ≤ 3 := by
  exact (getBook_verbatim_and_capped honoringServer "rIssuerAddress" 3).2.2
    (fun q => by simp [honoringServer])

/-- C10: a destination tag of 0 is accepted by validateDestinationTag,
yet both the payment and the escrow payload builders drop it (no
DestinationTag field is set), and the call-site expression already maps
0 to undefined — a zero tag can never reach the ledger. -/
theorem zero_tag_dropped_from_payloads (account destination amount issuer : String)
    (memos : List (String × String)) (eopts : EscrowOptions) :
    validateDestinationTag 0 = true ∧
    (sendRlusdTx account destination amount issuer
      { destinationTag := some 0, memos := memos }).destinationTag = none ∧
    (createEscrowTx account destination amount
      { eopts with destinationTag := some 0 }).destinationTag = none ∧
    tagOrUndefined 0 = none := by
  exact ⟨by decide, rfl, rfl, rfl⟩
